import Mathlib

/-!
Verification of the long-running-operation lifecycle and polling engine of
the python-yc-client repository, shallowly embedded in Lean 4.

Sources embedded:
  - yandex_cloud_client/operation.py : Operation, OperationError, OperationWait
  - yandex_cloud_client/utils/request.py : RpcError enumeration
  - yandex_cloud_client/client.py : YandexCloudClient dispatcher helpers
-/

namespace YC

/-- Python runtime exceptions that the embedded code paths can raise. -/
inductive PyExn
  | valueError
  | typeError
deriving DecidableEq, Repr

/-- Transport-level errors raised by utils/request.py (error.py classes).
Each carries the optional message the Request wrapper attaches. -/
inductive TransportError
  | unauthorized (msg : Option String)
  | badRequest (msg : Option String)
  | permissionDenied (msg : Option String)
  | resourceNotFound (msg : Option String)
  | resourceExhausted (msg : Option String)
  | featureNotImplemented (msg : Option String)
  | httpError (msg : Option String)
  | networkError (msg : Option String)
  | timedOut
deriving DecidableEq, Repr

/-- The RpcError enumeration of utils/request.py: 16 named grpc codes. -/
inductive RpcError
  | CANCELLED
  | UNKNOWN
  | INVALID_ARGUMENT
  | DEADLINE_EXCEEDED
  | NOT_FOUND
  | ALREADY_EXISTS
  | PERMISSION_DENIED
  | RESOURCE_EXHAUSTED
  | FAILED_PRECONDITION
  | ABORTED
  | OUT_OF_RANGE
  | NOT_IMPLEMENTED
  | INTERNAL
  | UNAVAILABLE
  | DATA_LOSS
  | UNAUTHENTICATED
deriving DecidableEq, Repr

/-- The integer value of each enumeration member (utils/request.py lines 165-180). -/
def RpcError.value : RpcError → Int
  | .CANCELLED => 1
  | .UNKNOWN => 2
  | .INVALID_ARGUMENT => 3
  | .DEADLINE_EXCEEDED => 4
  | .NOT_FOUND => 5
  | .ALREADY_EXISTS => 6
  | .PERMISSION_DENIED => 7
  | .RESOURCE_EXHAUSTED => 8
  | .FAILED_PRECONDITION => 9
  | .ABORTED => 10
  | .OUT_OF_RANGE => 11
  | .NOT_IMPLEMENTED => 12
  | .INTERNAL => 13
  | .UNAVAILABLE => 14
  | .DATA_LOSS => 15
  | .UNAUTHENTICATED => 16

/-- Value lookup performed by the Python enumeration call `RpcError(n)`:
returns the unique member with that value, or none when `n` is not a
defined value (in which case Python raises ValueError). -/
def RpcError.fromValue (n : Int) : Option RpcError :=
  if n = 1 then some .CANCELLED
  else if n = 2 then some .UNKNOWN
  else if n = 3 then some .INVALID_ARGUMENT
  else if n = 4 then some .DEADLINE_EXCEEDED
  else if n = 5 then some .NOT_FOUND
  else if n = 6 then some .ALREADY_EXISTS
  else if n = 7 then some .PERMISSION_DENIED
  else if n = 8 then some .RESOURCE_EXHAUSTED
  else if n = 9 then some .FAILED_PRECONDITION
  else if n = 10 then some .ABORTED
  else if n = 11 then some .OUT_OF_RANGE
  else if n = 12 then some .NOT_IMPLEMENTED
  else if n = 13 then some .INTERNAL
  else if n = 14 then some .UNAVAILABLE
  else if n = 15 then some .DATA_LOSS
  else if n = 16 then some .UNAUTHENTICATED
  else none

/-- The OperationError entity (operation.py lines 128-152): code is the
RpcError member produced from the integer code, message and details are
kept as received. -/
structure OperationError where
  code : Option RpcError
  message : Option String
  details : Option String
deriving DecidableEq, Repr

/-- The constructor body of OperationError (operation.py lines 131-144):
`self.code = RpcError(int(code)) if code is not None else code`.
The Python enumeration call raises ValueError on an undefined integer
value, so the result is an Except. -/
def OperationError.init (code : Option Int) (message details : Option String) :
    Except PyExn OperationError :=
  match code with
  | none => .ok { code := none, message := message, details := details }
  | some c =>
    match RpcError.fromValue c with
    | none => .error .valueError
    | some r => .ok { code := some r, message := message, details := details }

/-- The Operation entity (operation.py lines 17-61), restricted to the
fields the polling engine reads. -/
structure Operation where
  id : Option String
  created_by : Option String
  description : Option String
  done : Bool
  response : Option String
  metadata : Option String
  error : Option OperationError
deriving DecidableEq, Repr

/-- The constructor body of Operation (operation.py lines 20-49):
`self.done = bool(done)`, so a missing or null done field becomes False;
the remaining fields are stored as received. -/
def Operation.init (id created_by description : Option String) (done : Option Bool)
    (response metadata : Option String) (error : Option OperationError) : Operation :=
  { id := id
    created_by := created_by
    description := description
    done := done.getD false
    response := response
    metadata := metadata
    error := error }

/-- Operation.failed property (operation.py lines 51-55): true iff error is
not None. -/
def Operation.failed (op : Operation) : Bool :=
  op.error.isSome

/-- Operation.completed property (operation.py lines 57-61): the truth
value of done. -/
def Operation.completed (op : Operation) : Bool :=
  op.done

/-- The OperationWait poller state built by its constructor. -/
structure OperationWait where
  delay : Int
  deadline : Option Int
deriving DecidableEq, Repr

/-- The constructor body of OperationWait (operation.py lines 159-164):
`self._delay = int(delay)` with no validation, and
`self._deadline = time.time() + int(timeout) if timeout is not None else None`.
Defaults are delay=2 and timeout=600. -/
def mkOperationWait (now : Int) (delay : Int := 2) (timeout : Option Int := some 600) :
    OperationWait :=
  { delay := delay, deadline := timeout.map (fun t => now + t) }

/-- Outcome of one call of OperationWait._wait_operation. -/
inductive Step
  | pending
  | finished (op : Operation)
  | opFailed (e : Option OperationError)
  | deadlineExceeded (opId desc : Option String)
  | transportError (e : TransportError)
  | typeError
deriving DecidableEq, Repr

/-- One poll iteration, OperationWait._wait_operation (operation.py lines
187-201): refresh the snapshot first (a Transport error from the refresh
propagates); then if failed raise RuntimeError carrying the error; else if
completed return the operation; else compare wall-clock time with the
deadline, raising OperationDeadlineExceeded(id, description) when reached,
and crashing with TypeError when the deadline is None (the Python
comparison `time.time() >= None`); otherwise fall through returning None. -/
def waitStep (r : Except TransportError Operation) (now : Int) (deadline : Option Int) :
    Step :=
  match r with
  | .error e => .transportError e
  | .ok op =>
    if op.failed then .opFailed op.error
    else if op.completed then .finished op
    else
      match deadline with
      | some d => if d ≤ now then .deadlineExceeded op.id op.description else .pending
      | none => .typeError

/-- Terminal outcome of a whole wait (the value returned by, or the
exception escaping from, OperationWait.completed or
OperationWait.await_complete_async). -/
inductive WaitOutcome
  | success (op : Operation)
  | noneResult
  | opFailed (e : Option OperationError)
  | deadlineExceeded (opId desc : Option String)
  | transportError (e : TransportError)
  | typeError
deriving DecidableEq, Repr

/-- The blocking waiter OperationWait.completed (operation.py lines
172-178): `while not self._wait_operation(): sleep(delay)` and then
`return self._wait_operation()`, so after the loop observes a finished
snapshot one extra refresh is performed by the return statement.
Arguments: the refresh stream (result of the k-th get-operation call),
the clock (wall time at the k-th deadline check), the deadline, fuel,
the index of the next refresh call, and sleeps performed so far.
Returns the outcome together with the total number of refresh calls and
the total number of sleeps, or none when fuel runs out. -/
def syncWait (refresh : Nat → Except TransportError Operation) (clock : Nat → Int)
    (deadline : Option Int) : Nat → Nat → Nat → Option (WaitOutcome × Nat × Nat)
  | 0, _, _ => none
  | fuel + 1, k, s =>
    match waitStep (refresh k) (clock k) deadline with
    | .pending => syncWait refresh clock deadline fuel (k + 1) (s + 1)
    | .opFailed e => some (.opFailed e, k + 1, s)
    | .deadlineExceeded i d => some (.deadlineExceeded i d, k + 1, s)
    | .transportError e => some (.transportError e, k + 1, s)
    | .typeError => some (.typeError, k + 1, s)
    | .finished _ =>
      match waitStep (refresh (k + 1)) (clock (k + 1)) deadline with
      | .pending => some (.noneResult, k + 2, s)
      | .finished op => some (.success op, k + 2, s)
      | .opFailed e => some (.opFailed e, k + 2, s)
      | .deadlineExceeded i d => some (.deadlineExceeded i d, k + 2, s)
      | .transportError e => some (.transportError e, k + 2, s)
      | .typeError => some (.typeError, k + 2, s)

/-- The cooperative waiter OperationWait.await_complete_async
(operation.py lines 180-185): `while not self._wait_operation():
await asyncio.sleep(delay)` and then `return self._wait_operation()`.
Same loop over the same _wait_operation, with a cooperative suspension
in place of the thread sleep. -/
def asyncWait (refresh : Nat → Except TransportError Operation) (clock : Nat → Int)
    (deadline : Option Int) : Nat → Nat → Nat → Option (WaitOutcome × Nat × Nat)
  | 0, _, _ => none
  | fuel + 1, k, s =>
    match waitStep (refresh k) (clock k) deadline with
    | .pending => asyncWait refresh clock deadline fuel (k + 1) (s + 1)
    | .opFailed e => some (.opFailed e, k + 1, s)
    | .deadlineExceeded i d => some (.deadlineExceeded i d, k + 1, s)
    | .transportError e => some (.transportError e, k + 1, s)
    | .typeError => some (.typeError, k + 1, s)
    | .finished _ =>
      match waitStep (refresh (k + 1)) (clock (k + 1)) deadline with
      | .pending => some (.noneResult, k + 2, s)
      | .finished op => some (.success op, k + 2, s)
      | .opFailed e => some (.opFailed e, k + 2, s)
      | .deadlineExceeded i d => some (.deadlineExceeded i d, k + 2, s)
      | .transportError e => some (.transportError e, k + 2, s)
      | .typeError => some (.typeError, k + 2, s)

/-- Outcome of one dispatcher call. -/
inductive DispatchOutcome
  | httpError (e : TransportError)
  | returned (op : Operation)
  | waited (r : WaitOutcome)
deriving DecidableEq, Repr

/-- YandexCloudClient._resource_create (client.py lines 208-215): issue one
HTTP POST, deserialize the response into an Operation; when await_complete
is falsy return that Operation immediately, otherwise run
OperationWait(operation).completed with default delay and timeout.
Returns the outcome with the number of refresh calls made. -/
def resourceCreate (http : Except TransportError Operation) (awaitComplete : Bool)
    (refresh : Nat → Except TransportError Operation) (clock : Nat → Int) (now : Int)
    (fuel : Nat) : Option (DispatchOutcome × Nat) :=
  match http with
  | .error e => some (.httpError e, 0)
  | .ok operation =>
    if !awaitComplete then some (.returned operation, 0)
    else (syncWait refresh clock (mkOperationWait now).deadline fuel 0 0).map
      (fun r => (.waited r.1, r.2.1))

/-- YandexCloudClient._delete_resource (client.py lines 190-196): issue one
HTTP DELETE, deserialize the response into an Operation; when
await_complete is falsy return that Operation immediately, otherwise run
OperationWait(operation).completed with default delay and timeout. -/
def deleteResource (http : Except TransportError Operation) (awaitComplete : Bool)
    (refresh : Nat → Except TransportError Operation) (clock : Nat → Int) (now : Int)
    (fuel : Nat) : Option (DispatchOutcome × Nat) :=
  match http with
  | .error e => some (.httpError e, 0)
  | .ok operation =>
    if !awaitComplete then some (.returned operation, 0)
    else (syncWait refresh clock (mkOperationWait now).deadline fuel 0 0).map
      (fun r => (.waited r.1, r.2.1))

/-! Helper lemmas about single poll iterations and loop unfolding. -/

/-- A refresh that raises a Transport error preempts every state check. -/
theorem stepTransport (e : TransportError) (now : Int) (d : Option Int) :
    waitStep (.error e) now d = .transportError e := rfl

/-- A failed snapshot raises no matter what done, the clock or the deadline say. -/
theorem stepFailed (op : Operation) (now : Int) (d : Option Int) (h : op.failed = true) :
    waitStep (.ok op) now d = .opFailed op.error := by
  simp [waitStep, h]

/-- A completed, non-failed snapshot finishes the iteration no matter what
the clock or the deadline say. -/
theorem stepFinished (op : Operation) (now : Int) (d : Option Int)
    (hf : op.failed = false) (hc : op.completed = true) :
    waitStep (.ok op) now d = .finished op := by
  simp [waitStep, hf, hc]

/-- An in-flight snapshot at or past the deadline raises deadline-exceeded
carrying the operation id and description. -/
theorem stepDeadline (op : Operation) (now D : Int)
    (hf : op.failed = false) (hc : op.completed = false) (hD : D ≤ now) :
    waitStep (.ok op) now (some D) = .deadlineExceeded op.id op.description := by
  simp [waitStep, hf, hc, hD]

/-- An in-flight snapshot strictly before the deadline stays pending. -/
theorem stepPending (op : Operation) (now D : Int)
    (hf : op.failed = false) (hc : op.completed = false) (hD : now < D) :
    waitStep (.ok op) now (some D) = .pending := by
  simp [waitStep, hf, hc, not_le.mpr hD]

/-- An in-flight snapshot with a None deadline crashes the Python comparison. -/
theorem stepTypeError (op : Operation) (now : Int)
    (hf : op.failed = false) (hc : op.completed = false) :
    waitStep (.ok op) now none = .typeError := by
  simp [waitStep, hf, hc]

/-- Pending variant of stepPending built from raw snapshot fields. -/
theorem stepPendingFields (op : Operation) (now D : Int)
    (he : op.error = none) (hd : op.done = false) (hD : now < D) :
    waitStep (.ok op) now (some D) = .pending :=
  stepPending op now D (by simp [Operation.failed, he]) (by simp [Operation.completed, hd]) hD

/-- A finished iteration can only come from a successfully refreshed
snapshot that is done and error-free. -/
theorem waitStep_finished_src (r : Except TransportError Operation) (now : Int)
    (d : Option Int) (op : Operation) (h : waitStep r now d = .finished op) :
    r = .ok op ∧ op.done = true ∧ op.error = none := by
  cases r with
  | error e => simp [waitStep] at h
  | ok p =>
    simp only [waitStep] at h
    by_cases hf : p.failed
    · simp [hf] at h
    · by_cases hc : p.completed
      · simp [hf, hc] at h
        subst h
        refine ⟨rfl, hc, ?_⟩
        simpa [Operation.failed] using Option.not_isSome_iff_eq_none.mp hf
      · simp only [hf, hc, if_false, Bool.false_eq_true] at h
        cases d with
        | none => simp at h
        | some D => by_cases hD : D ≤ now <;> simp [hD] at h

/-- A pending iteration can only come from a successfully refreshed
snapshot that is still in flight. -/
theorem waitStep_pending_src (r : Except TransportError Operation) (now : Int)
    (d : Option Int) (h : waitStep r now d = .pending) :
    ∃ q, r = .ok q ∧ q.done = false ∧ q.error = none := by
  cases r with
  | error e => simp [waitStep] at h
  | ok p =>
    refine ⟨p, rfl, ?_⟩
    simp only [waitStep] at h
    by_cases hf : p.failed
    · simp [hf] at h
    · by_cases hc : p.completed
      · simp [hf, hc] at h
      · refine ⟨by simpa [Operation.completed] using hc, ?_⟩
        simpa [Operation.failed] using Option.not_isSome_iff_eq_none.mp hf

/-- Loop unfolding: a pending iteration sleeps once and repeats. -/
theorem syncWait_succ_pending (refresh : Nat → Except TransportError Operation)
    (clock : Nat → Int) (d : Option Int) (fuel k s : Nat)
    (hw : waitStep (refresh k) (clock k) d = .pending) :
    syncWait refresh clock d (fuel + 1) k s = syncWait refresh clock d fuel (k + 1) (s + 1) := by
  simp [syncWait, hw]

/-- Loop unfolding for the cooperative waiter: a pending iteration suspends
once and repeats. -/
theorem asyncWait_succ_pending (refresh : Nat → Except TransportError Operation)
    (clock : Nat → Int) (d : Option Int) (fuel k s : Nat)
    (hw : waitStep (refresh k) (clock k) d = .pending) :
    asyncWait refresh clock d (fuel + 1) k s = asyncWait refresh clock d fuel (k + 1) (s + 1) := by
  simp [asyncWait, hw]

/-- Loop unfolding: an iteration that raises the operation error ends the
wait at once with that error. -/
theorem syncWait_succ_opFailed (refresh : Nat → Except TransportError Operation)
    (clock : Nat → Int) (d : Option Int) (fuel k s : Nat) (e : Option OperationError)
    (hw : waitStep (refresh k) (clock k) d = .opFailed e) :
    syncWait refresh clock d (fuel + 1) k s = some (.opFailed e, k + 1, s) := by
  simp [syncWait, hw]

/-- Cooperative variant of syncWait_succ_opFailed. -/
theorem asyncWait_succ_opFailed (refresh : Nat → Except TransportError Operation)
    (clock : Nat → Int) (d : Option Int) (fuel k s : Nat) (e : Option OperationError)
    (hw : waitStep (refresh k) (clock k) d = .opFailed e) :
    asyncWait refresh clock d (fuel + 1) k s = some (.opFailed e, k + 1, s) := by
  simp [asyncWait, hw]

/-- Loop unfolding: an iteration that raises deadline-exceeded ends the
wait at once with that condition. -/
theorem syncWait_succ_deadline (refresh : Nat → Except TransportError Operation)
    (clock : Nat → Int) (d : Option Int) (fuel k s : Nat) (i de : Option String)
    (hw : waitStep (refresh k) (clock k) d = .deadlineExceeded i de) :
    syncWait refresh clock d (fuel + 1) k s = some (.deadlineExceeded i de, k + 1, s) := by
  simp [syncWait, hw]

/-- Cooperative variant of syncWait_succ_deadline. -/
theorem asyncWait_succ_deadline (refresh : Nat → Except TransportError Operation)
    (clock : Nat → Int) (d : Option Int) (fuel k s : Nat) (i de : Option String)
    (hw : waitStep (refresh k) (clock k) d = .deadlineExceeded i de) :
    asyncWait refresh clock d (fuel + 1) k s = some (.deadlineExceeded i de, k + 1, s) := by
  simp [asyncWait, hw]

/-- Loop unfolding: an iteration whose refresh raises a Transport error
ends the wait at once with that error propagated unchanged. -/
theorem syncWait_succ_transport (refresh : Nat → Except TransportError Operation)
    (clock : Nat → Int) (d : Option Int) (fuel k s : Nat) (e : TransportError)
    (hw : waitStep (refresh k) (clock k) d = .transportError e) :
    syncWait refresh clock d (fuel + 1) k s = some (.transportError e, k + 1, s) := by
  simp [syncWait, hw]

/-- Loop unfolding: an iteration that crashes the deadline comparison ends
the wait with the TypeError. -/
theorem syncWait_succ_typeError (refresh : Nat → Except TransportError Operation)
    (clock : Nat → Int) (d : Option Int) (fuel k s : Nat)
    (hw : waitStep (refresh k) (clock k) d = .typeError) :
    syncWait refresh clock d (fuel + 1) k s = some (.typeError, k + 1, s) := by
  simp [syncWait, hw]

/-- Running through a block of pending iterations advances the refresh
index and the sleep counter together. -/
theorem syncWait_skip (refresh : Nat → Except TransportError Operation)
    (clock : Nat → Int) (d : Option Int) :
    ∀ (k a s fuel : Nat),
      (∀ j, a ≤ j → j < a + k → waitStep (refresh j) (clock j) d = .pending) →
      syncWait refresh clock d (fuel + k) a s = syncWait refresh clock d fuel (a + k) (s + k) := by
  intro k
  induction k with
  | zero => intro a s fuel _; simp
  | succ m ih =>
    intro a s fuel h
    have h0 : waitStep (refresh a) (clock a) d = .pending := h a le_rfl (by omega)
    have e1 : fuel + (m + 1) = (fuel + m) + 1 := by omega
    rw [e1, syncWait_succ_pending refresh clock d (fuel + m) a s h0,
      ih (a + 1) (s + 1) fuel (fun j hj1 hj2 => h j (by omega) (by omega))]
    have e2 : a + 1 + m = a + (m + 1) := by omega
    have e3 : s + 1 + m = s + (m + 1) := by omega
    rw [e2, e3]

/-! Concrete snapshots used by witnesses and counterexamples. -/

/-- Concrete in-flight snapshot. -/
def pendingOp : Operation :=
  { id := some "op1", created_by := none, description := some "create disk",
    done := false, response := none, metadata := none, error := none }

/-- Concrete completed snapshot. -/
def doneOp : Operation :=
  { pendingOp with done := true }

/-- Concrete NOT_FOUND operation error with message x. -/
def notFoundError : OperationError :=
  { code := some .NOT_FOUND, message := some "x", details := none }

/-- Concrete failed snapshot carrying notFoundError. -/
def failedOp : Operation :=
  { pendingOp with error := some notFoundError }

/-- A wait can only return a snapshot that is done and error-free: the
success outcome is produced by a finished iteration. -/
theorem syncWait_success_done (refresh : Nat → Except TransportError Operation)
    (clock : Nat → Int) (d : Option Int) :
    ∀ (fuel k s n sl : Nat) (op : Operation),
      syncWait refresh clock d fuel k s = some (.success op, n, sl) →
      op.done = true ∧ op.error = none := by
  intro fuel
  induction fuel with
  | zero => intro k s n sl op h; simp [syncWait] at h
  | succ m ih =>
    intro k s n sl op h
    cases hw : waitStep (refresh k) (clock k) d with
    | pending =>
      rw [syncWait_succ_pending refresh clock d m k s hw] at h
      exact ih (k + 1) (s + 1) n sl op h
    | opFailed e => simp [syncWait, hw] at h
    | deadlineExceeded i de => simp [syncWait, hw] at h
    | transportError e => simp [syncWait, hw] at h
    | typeError => simp [syncWait, hw] at h
    | finished p =>
      cases hw2 : waitStep (refresh (k + 1)) (clock (k + 1)) d with
      | finished q =>
        simp [syncWait, hw, hw2] at h
        obtain ⟨hq, -, -⟩ := h
        obtain ⟨-, hd, he⟩ := waitStep_finished_src (refresh (k + 1)) (clock (k + 1)) d q hw2
        exact ⟨hq ▸ hd, hq ▸ he⟩
      | pending => simp [syncWait, hw, hw2] at h
      | opFailed e => simp [syncWait, hw, hw2] at h
      | deadlineExceeded i de => simp [syncWait, hw, hw2] at h
      | transportError e => simp [syncWait, hw, hw2] at h
      | typeError => simp [syncWait, hw, hw2] at h

/-- If refreshed snapshots never fall back from done to in-flight (once a
refresh reports done, the next refresh, when it succeeds, reports done or
an error), then the wait never returns the Python None value. -/
theorem syncWait_no_noneResult (refresh : Nat → Except TransportError Operation)
    (clock : Nat → Int) (d : Option Int)
    (hmono : ∀ k p q, refresh k = .ok p → p.done = true → refresh (k + 1) = .ok q →
      q.done = true ∨ q.error.isSome = true) :
    ∀ (fuel k s n sl : Nat),
      syncWait refresh clock d fuel k s ≠ some (.noneResult, n, sl) := by
  intro fuel
  induction fuel with
  | zero => intro k s n sl h; simp [syncWait] at h
  | succ m ih =>
    intro k s n sl h
    cases hw : waitStep (refresh k) (clock k) d with
    | pending =>
      rw [syncWait_succ_pending refresh clock d m k s hw] at h
      exact ih (k + 1) (s + 1) n sl h
    | opFailed e => simp [syncWait, hw] at h
    | deadlineExceeded i de => simp [syncWait, hw] at h
    | transportError e => simp [syncWait, hw] at h
    | typeError => simp [syncWait, hw] at h
    | finished p =>
      cases hw2 : waitStep (refresh (k + 1)) (clock (k + 1)) d with
      | pending =>
        obtain ⟨hk, hpd, -⟩ := waitStep_finished_src (refresh k) (clock k) d p hw
        obtain ⟨q, hk2, hqd, hqe⟩ :=
          waitStep_pending_src (refresh (k + 1)) (clock (k + 1)) d hw2
        rcases hmono k p q hk hpd hk2 with hq | hq
        · rw [hqd] at hq; exact Bool.false_ne_true hq
        · rw [hqe] at hq; simp at hq
      | finished q => simp [syncWait, hw, hw2] at h
      | opFailed e => simp [syncWait, hw, hw2] at h
      | deadlineExceeded i de => simp [syncWait, hw, hw2] at h
      | transportError e => simp [syncWait, hw, hw2] at h
      | typeError => simp [syncWait, hw, hw2] at h

/-! Claim theorems. -/

/-- C7: for every Operation built by the constructor, done=true with a null
error gives completed=true and failed=false; a non-null error gives
failed=true regardless of done; and a missing or null done field gives
completed=false. -/
theorem C7_done_error_flags (id cb desc : Option String) (dn : Option Bool)
    (resp meta : Option String) (err : Option OperationError) :
    (dn = some true → err = none →
      (Operation.init id cb desc dn resp meta err).completed = true ∧
      (Operation.init id cb desc dn resp meta err).failed = false)
    ∧ (∀ e, err = some e → (Operation.init id cb desc dn resp meta err).failed = true)
    ∧ (dn = none → (Operation.init id cb desc dn resp meta err).completed = false) := by
  refine ⟨?_, ?_, ?_⟩
  · intro h1 h2
    simp [Operation.init, Operation.completed, Operation.failed, h1, h2]
  · intro e h
    simp [Operation.init, Operation.failed, h]
  · intro h
    simp [Operation.init, Operation.completed, h]

/-- Witness for C7 at a concrete completed, error-free Operation. -/
theorem C7_witness :
    (Operation.init (some "op1") none none (some true) none none none).completed = true ∧
    (Operation.init (some "op1") none none (some true) none none none).failed = false :=
  (C7_done_error_flags (some "op1") none none (some true) none none none).1 rfl rfl

/-- C8 counterexample: deserializing an OperationError whose integer code
is 17, outside the 16 defined codes, crashes with ValueError, contradicting
the claim that it does not crash deserialization. -/
theorem C8_counterexample :
    OperationError.init (some 17) none none = .error .valueError := by rfl

/-- C8 amended: the 16 defined integer codes map to exactly one enumeration
member and back without ambiguity, a recognized code deserializes to that
member, but an unrecognized integer code raises ValueError, crashing the
deserialization. -/
theorem C8_code_round_trip :
    (∀ r : RpcError, RpcError.fromValue r.value = some r)
    ∧ (∀ (n : Int) (r : RpcError), RpcError.fromValue n = some r → n = r.value)
    ∧ (∀ (n : Int) (msg det : Option String), RpcError.fromValue n = none →
        OperationError.init (some n) msg det = .error .valueError)
    ∧ (∀ (n : Int) (r : RpcError) (msg det : Option String), RpcError.fromValue n = some r →
        OperationError.init (some n) msg det =
          .ok { code := some r, message := msg, details := det }) := by
  refine ⟨?_, ?_, ?_, ?_⟩
  · intro r; cases r <;> rfl
  · intro n r h
    by_cases h1 : n = 1
    · subst h1; simp [RpcError.fromValue] at h; subst h; rfl
    by_cases h2 : n = 2
    · subst h2; simp [RpcError.fromValue] at h; subst h; rfl
    by_cases h3 : n = 3
    · subst h3; simp [RpcError.fromValue] at h; subst h; rfl
    by_cases h4 : n = 4
    · subst h4; simp [RpcError.fromValue] at h; subst h; rfl
    by_cases h5 : n = 5
    · subst h5; simp [RpcError.fromValue] at h; subst h; rfl
    by_cases h6 : n = 6
    · subst h6; simp [RpcError.fromValue] at h; subst h; rfl
    by_cases h7 : n = 7
    · subst h7; simp [RpcError.fromValue] at h; subst h; rfl
    by_cases h8 : n = 8
    · subst h8; simp [RpcError.fromValue] at h; subst h; rfl
    by_cases h9 : n = 9
    · subst h9; simp [RpcError.fromValue] at h; subst h; rfl
    by_cases h10 : n = 10
    · subst h10; simp [RpcError.fromValue] at h; subst h; rfl
    by_cases h11 : n = 11
    · subst h11; simp [RpcError.fromValue] at h; subst h; rfl
    by_cases h12 : n = 12
    · subst h12; simp [RpcError.fromValue] at h; subst h; rfl
    by_cases h13 : n = 13
    · subst h13; simp [RpcError.fromValue] at h; subst h; rfl
    by_cases h14 : n = 14
    · subst h14; simp [RpcError.fromValue] at h; subst h; rfl
    by_cases h15 : n = 15
    · subst h15; simp [RpcError.fromValue] at h; subst h; rfl
    by_cases h16 : n = 16
    · subst h16; simp [RpcError.fromValue] at h; subst h; rfl
    unfold RpcError.fromValue at h
    rw [if_neg h1, if_neg h2, if_neg h3, if_neg h4, if_neg h5, if_neg h6, if_neg h7, if_neg h8,
      if_neg h9, if_neg h10, if_neg h11, if_neg h12, if_neg h13, if_neg h14, if_neg h15,
      if_neg h16] at h
    exact Option.noConfusion h
  · intro n msg det h
    simp [OperationError.init, h]
  · intro n r msg det h
    simp [OperationError.init, h]

/-- Witness for C8 at the NOT_FOUND code 5. -/
theorem C8_witness :
    OperationError.init (some 5) (some "x") none =
      .ok { code := some .NOT_FOUND, message := some "x", details := none } :=
  C8_code_round_trip.2.2.2 5 .NOT_FOUND (some "x") none (by decide)

/-- C9: the OperationWait constructor stores a zero or negative delay
verbatim, with no rejection and no clamping, so the poll loop sleeps zero
or a negative amount between polls. This evaluates the constructor at the
failing inputs. -/
theorem C9_delay_unvalidated :
    (mkOperationWait 0 0 (some 600)).delay = 0
    ∧ (mkOperationWait 0 (-5) (some 600)).delay = -5
    ∧ (mkOperationWait 0 2 (some 600)).delay = 2 := by decide

/-- C1: each poll iteration, in the blocking and in the cooperative wait,
refreshes first (a refresh error preempts every check), then checks failed
before completed before the deadline, raising immediately with the
OperationError on failure and with the operation id and description on a
reached deadline, returning the snapshot when completed, and otherwise
sleeping once and repeating; no reordering. -/
theorem C1_strict_order (refresh : Nat → Except TransportError Operation)
    (clock : Nat → Int) (dl : Option Int) (fuel k s : Nat) (now D : Int)
    (op : Operation) (te : TransportError) :
    (waitStep (.error te) now dl = .transportError te)
    ∧ (op.failed = true → waitStep (.ok op) now dl = .opFailed op.error)
    ∧ (op.failed = false → op.completed = true → waitStep (.ok op) now dl = .finished op)
    ∧ (op.failed = false → op.completed = false → D ≤ now →
        waitStep (.ok op) now (some D) = .deadlineExceeded op.id op.description)
    ∧ (op.failed = false → op.completed = false → now < D →
        waitStep (.ok op) now (some D) = .pending)
    ∧ (waitStep (refresh k) (clock k) dl = .pending →
        syncWait refresh clock dl (fuel + 1) k s = syncWait refresh clock dl fuel (k + 1) (s + 1)
        ∧ asyncWait refresh clock dl (fuel + 1) k s = asyncWait refresh clock dl fuel (k + 1) (s + 1))
    ∧ (∀ e, waitStep (refresh k) (clock k) dl = .opFailed e →
        syncWait refresh clock dl (fuel + 1) k s = some (.opFailed e, k + 1, s)
        ∧ asyncWait refresh clock dl (fuel + 1) k s = some (.opFailed e, k + 1, s))
    ∧ (∀ i de, waitStep (refresh k) (clock k) dl = .deadlineExceeded i de →
        syncWait refresh clock dl (fuel + 1) k s = some (.deadlineExceeded i de, k + 1, s)
        ∧ asyncWait refresh clock dl (fuel + 1) k s = some (.deadlineExceeded i de, k + 1, s)) :=
  ⟨stepTransport te now dl,
   fun h => stepFailed op now dl h,
   fun h1 h2 => stepFinished op now dl h1 h2,
   fun h1 h2 h3 => stepDeadline op now D h1 h2 h3,
   fun h1 h2 h3 => stepPending op now D h1 h2 h3,
   fun hw => ⟨syncWait_succ_pending refresh clock dl fuel k s hw,
              asyncWait_succ_pending refresh clock dl fuel k s hw⟩,
   fun e hw => ⟨syncWait_succ_opFailed refresh clock dl fuel k s e hw,
                asyncWait_succ_opFailed refresh clock dl fuel k s e hw⟩,
   fun i de hw => ⟨syncWait_succ_deadline refresh clock dl fuel k s i de hw,
                   asyncWait_succ_deadline refresh clock dl fuel k s i de hw⟩⟩

/-- Witness for C1: a failed snapshot raises at once even while a deadline
is configured and not yet reached. -/
theorem C1_witness :
    waitStep (.ok failedOp) 0 (some 100) = .opFailed (some notFoundError) := by
  have h := (C1_strict_order (fun _ => .ok failedOp) (fun _ => 0) (some 100)
    0 0 0 0 100 failedOp .timedOut).2.1 (by decide)
  simpa [failedOp] using h

/-- C2: constructing OperationWait with a null timeout stores a null
deadline, but the first in-flight poll then evaluates the Python
comparison time.time() with None and crashes with TypeError instead of
waiting forever. This evaluates the poll loop at the failing input. -/
theorem C2_null_timeout_type_error (refresh : Nat → Except TransportError Operation)
    (clock : Nat → Int) (fuel : Nat) (t0 : Int) (op : Operation)
    (h0 : refresh 0 = .ok op) (he : op.error = none) (hd : op.done = false)
    (hfuel : 1 ≤ fuel) :
    syncWait refresh clock (mkOperationWait t0 2 none).deadline fuel 0 0 =
      some (.typeError, 1, 0) := by
  obtain ⟨m, rfl⟩ : ∃ m, fuel = m + 1 := ⟨fuel - 1, by omega⟩
  have hdl : (mkOperationWait t0 2 none).deadline = none := rfl
  rw [hdl]
  apply syncWait_succ_typeError
  rw [h0]
  exact stepTypeError op (clock 0)
    (by simp [Operation.failed, he]) (by simp [Operation.completed, hd])

/-- Witness for C2 at a concrete in-flight refresh stream. -/
theorem C2_witness :
    syncWait (fun _ => .ok pendingOp) (fun _ => 0) (mkOperationWait 0 2 none).deadline 5 0 0 =
      some (.typeError, 1, 0) :=
  C2_null_timeout_type_error (fun _ => .ok pendingOp) (fun _ => 0) 5 0 pendingOp
    rfl rfl rfl (by omega)

/-- C4: given the same refresh stream, the same clock and the same
deadline, the blocking and the cooperative waiters produce identical
outcomes, refresh counts and sleep counts. -/
theorem C4_sync_async_equivalent (refresh : Nat → Except TransportError Operation)
    (clock : Nat → Int) (d : Option Int) :
    ∀ (fuel k s : Nat),
      syncWait refresh clock d fuel k s = asyncWait refresh clock d fuel k s := by
  intro fuel
  induction fuel with
  | zero => intro k s; rfl
  | succ m ih =>
    intro k s
    cases hw : waitStep (refresh k) (clock k) d <;> simp [syncWait, asyncWait, hw, ih]

/-- Refresh stream PENDING, PENDING, SUCCEEDED, then steadily SUCCEEDED. -/
def seqPPS : Nat → Except TransportError Operation :=
  fun k => .ok (if k < 2 then pendingOp else doneOp)

/-- C3 counterexample: on the stream [PENDING, PENDING, SUCCEEDED] with a
far deadline, the blocking wait makes 4 refresh calls, not the 3 the claim
states, because the return statement of the waiter runs one extra
iteration after the loop observes the finished snapshot. -/
theorem C3_counterexample :
    syncWait seqPPS (fun _ => 0) (some 1000000) 10 0 0 = some (.success doneOp, 4, 2)
    ∧ (4 : Nat) ≠ 3 :=
  ⟨rfl, by decide⟩

/-- C3 amended: on a refresh stream whose first two results are in flight
and whose results from the third on are SUCCEEDED, with a deadline still
in the future, the blocking wait returns the snapshot of a fourth refresh
call after exactly 4 refresh calls, sleeping exactly twice: three loop
iterations plus one extra refresh performed by the return statement. -/
theorem C3_four_refresh_calls (refresh : Nat → Except TransportError Operation)
    (clock : Nat → Int) (D : Int) (fuel : Nat) (p0 p1 op2 op3 : Operation)
    (h0 : refresh 0 = .ok p0) (h0e : p0.error = none) (h0d : p0.done = false)
    (hc0 : clock 0 < D)
    (h1 : refresh 1 = .ok p1) (h1e : p1.error = none) (h1d : p1.done = false)
    (hc1 : clock 1 < D)
    (h2 : refresh 2 = .ok op2) (h2d : op2.done = true) (h2e : op2.error = none)
    (h3 : refresh 3 = .ok op3) (h3d : op3.done = true) (h3e : op3.error = none)
    (hfuel : 3 ≤ fuel) :
    syncWait refresh clock (some D) fuel 0 0 = some (.success op3, 4, 2) := by
  obtain ⟨m, rfl⟩ : ∃ m, fuel = (m + 1) + 2 := ⟨fuel - 3, by omega⟩
  have hskip := syncWait_skip refresh clock (some D) 2 0 0 (m + 1) (by
    intro j hj1 hj2
    interval_cases j
    · rw [h0]; exact stepPendingFields p0 (clock 0) D h0e h0d hc0
    · rw [h1]; exact stepPendingFields p1 (clock 1) D h1e h1d hc1)
  simp only [Nat.zero_add] at hskip
  rw [hskip]
  have hw2 : waitStep (refresh 2) (clock 2) (some D) = .finished op2 := by
    rw [h2]
    exact stepFinished op2 (clock 2) (some D) (by simp [Operation.failed, h2e])
      (by simp [Operation.completed, h2d])
  have hw3 : waitStep (refresh 3) (clock 3) (some D) = .finished op3 := by
    rw [h3]
    exact stepFinished op3 (clock 3) (some D) (by simp [Operation.failed, h3e])
      (by simp [Operation.completed, h3d])
  simp [syncWait, hw2, hw3]

/-- Witness for the amended C3 at the concrete stream seqPPS. -/
theorem C3_witness :
    syncWait seqPPS (fun _ => 0) (some 1000000) 10 0 0 = some (.success doneOp, 4, 2) :=
  C3_four_refresh_calls seqPPS (fun _ => 0) 1000000 10 pendingOp pendingOp doneOp doneOp
    rfl rfl rfl (by norm_num) rfl rfl rfl (by norm_num)
    rfl rfl rfl rfl rfl rfl (by norm_num)

/-- C5: when the first k refresh results are in flight under the deadline
and the k-th reports an error, the wait raises at once carrying that
error object with its code and message, after exactly k+1 refresh calls
and k sleeps; it never polls past a reported operation failure. With k=0
the raise is immediate, with zero sleeps and zero additional refreshes. -/
theorem C5_fail_fast (refresh : Nat → Except TransportError Operation)
    (clock : Nat → Int) (D : Int) (fuel k : Nat) (op : Operation) (e : OperationError)
    (hpre : ∀ j, j < k → ∃ p, refresh j = .ok p ∧ p.error = none ∧ p.done = false ∧ clock j < D)
    (hk : refresh k = .ok op) (he : op.error = some e) (hfuel : k < fuel) :
    syncWait refresh clock (some D) fuel 0 0 = some (.opFailed (some e), k + 1, k) := by
  obtain ⟨m, rfl⟩ : ∃ m, fuel = (m + 1) + k := ⟨fuel - 1 - k, by omega⟩
  have hskip := syncWait_skip refresh clock (some D) k 0 0 (m + 1) (by
    intro j hj1 hj2
    obtain ⟨p, hpj, hpe, hpd, hpc⟩ := hpre j (by omega)
    rw [hpj]
    exact stepPendingFields p (clock j) D hpe hpd hpc)
  simp only [Nat.zero_add] at hskip
  rw [hskip]
  have hw : waitStep (refresh k) (clock k) (some D) = .opFailed (some e) := by
    rw [hk]
    have hf := stepFailed op (clock k) (some D) (by simp [Operation.failed, he])
    rw [he] at hf
    exact hf
  exact syncWait_succ_opFailed refresh clock (some D) m k k (some e) hw

/-- Witness for C5: NOT_FOUND with message x on the first poll raises with
one refresh call and zero sleeps. -/
theorem C5_witness :
    syncWait (fun _ => .ok failedOp) (fun _ => 0) (some 1000) 5 0 0 =
      some (.opFailed (some notFoundError), 1, 0) :=
  C5_fail_fast (fun _ => .ok failedOp) (fun _ => 0) 1000 5 0 failedOp notFoundError
    (fun j hj => absurd hj (by omega)) rfl rfl (by omega)

/-- C6: a Transport error raised by the k-th refresh call, after k
in-flight polls, propagates out of the wait unchanged after exactly k+1
refresh calls and k sleeps: it is not retried, not swallowed, not turned
into a pending state and not turned into an operation failure. -/
theorem C6_transport_propagates (refresh : Nat → Except TransportError Operation)
    (clock : Nat → Int) (D : Int) (fuel k : Nat) (te : TransportError)
    (hpre : ∀ j, j < k → ∃ p, refresh j = .ok p ∧ p.error = none ∧ p.done = false ∧ clock j < D)
    (hk : refresh k = .error te) (hfuel : k < fuel) :
    syncWait refresh clock (some D) fuel 0 0 = some (.transportError te, k + 1, k) := by
  obtain ⟨m, rfl⟩ : ∃ m, fuel = (m + 1) + k := ⟨fuel - 1 - k, by omega⟩
  have hskip := syncWait_skip refresh clock (some D) k 0 0 (m + 1) (by
    intro j hj1 hj2
    obtain ⟨p, hpj, hpe, hpd, hpc⟩ := hpre j (by omega)
    rw [hpj]
    exact stepPendingFields p (clock j) D hpe hpd hpc)
  simp only [Nat.zero_add] at hskip
  rw [hskip]
  have hw : waitStep (refresh k) (clock k) (some D) = .transportError te := by
    rw [hk]
    exact stepTransport te (clock k) (some D)
  exact syncWait_succ_transport refresh clock (some D) m k k te hw

/-- Witness for C6: a not-found transport failure on the second refresh
propagates unchanged after one sleep. -/
theorem C6_witness :
    syncWait (fun j => if j = 0 then .ok pendingOp else .error (.resourceNotFound (some "gone")))
      (fun _ => 0) (some 1000) 5 0 0 =
      some (.transportError (.resourceNotFound (some "gone")), 2, 1) :=
  C6_transport_propagates
    (fun j => if j = 0 then .ok pendingOp else .error (.resourceNotFound (some "gone")))
    (fun _ => 0) 1000 5 1 (.resourceNotFound (some "gone"))
    (by
      intro j hj
      obtain rfl : j = 0 := by omega
      exact ⟨pendingOp, rfl, rfl, rfl, by norm_num⟩)
    rfl (by omega)

/-- C10: both mutating dispatcher wrappers obey the fixed template. In
fire-and-forget mode they return the Operation deserialized from the one
HTTP call at once, with zero polling, whatever its done and error fields
hold. In blocking-await mode any Operation they return as completed has
done=true and a null error, and, whenever refreshed snapshots never fall
back from done to in flight, the await never returns the Python None value
either: it returns a confirmed-done Operation or raises. -/
theorem C10_dispatch_template (http : Except TransportError Operation)
    (refresh : Nat → Except TransportError Operation) (clock : Nat → Int) (now : Int)
    (fuel : Nat) :
    (∀ op, http = .ok op →
      resourceCreate http false refresh clock now fuel = some (.returned op, 0) ∧
      deleteResource http false refresh clock now fuel = some (.returned op, 0))
    ∧ (∀ op n, resourceCreate http true refresh clock now fuel =
          some (.waited (.success op), n) → op.done = true ∧ op.error = none)
    ∧ (∀ op n, deleteResource http true refresh clock now fuel =
          some (.waited (.success op), n) → op.done = true ∧ op.error = none)
    ∧ ((∀ k p q, refresh k = .ok p → p.done = true → refresh (k + 1) = .ok q →
          q.done = true ∨ q.error.isSome = true) →
        ∀ n, resourceCreate http true refresh clock now fuel ≠ some (.waited .noneResult, n) ∧
          deleteResource http true refresh clock now fuel ≠ some (.waited .noneResult, n)) := by
  refine ⟨?_, ?_, ?_, ?_⟩
  · intro op h
    subst h
    exact ⟨rfl, rfl⟩
  · intro op n h
    cases http with
    | error e => simp [resourceCreate] at h
    | ok o =>
      simp only [resourceCreate, Bool.not_true, Bool.false_eq_true, if_false] at h
      rcases hsw : syncWait refresh clock (mkOperationWait now).deadline fuel 0 0
        with _ | ⟨o2, nn, ss⟩
      · rw [hsw] at h; simp at h
      · rw [hsw] at h
        simp only [Option.map_some', Option.some.injEq, Prod.mk.injEq,
          DispatchOutcome.waited.injEq] at h
        obtain ⟨ho, hn⟩ := h
        subst ho
        exact syncWait_success_done refresh clock (mkOperationWait now).deadline
          fuel 0 0 nn ss op hsw
  · intro op n h
    cases http with
    | error e => simp [deleteResource] at h
    | ok o =>
      simp only [deleteResource, Bool.not_true, Bool.false_eq_true, if_false] at h
      rcases hsw : syncWait refresh clock (mkOperationWait now).deadline fuel 0 0
        with _ | ⟨o2, nn, ss⟩
      · rw [hsw] at h; simp at h
      · rw [hsw] at h
        simp only [Option.map_some', Option.some.injEq, Prod.mk.injEq,
          DispatchOutcome.waited.injEq] at h
        obtain ⟨ho, hn⟩ := h
        subst ho
        exact syncWait_success_done refresh clock (mkOperationWait now).deadline
          fuel 0 0 nn ss op hsw
  · intro hmono n
    constructor
    · intro h
      cases http with
      | error e => simp [resourceCreate] at h
      | ok o =>
        simp only [resourceCreate, Bool.not_true, Bool.false_eq_true, if_false] at h
        rcases hsw : syncWait refresh clock (mkOperationWait now).deadline fuel 0 0
          with _ | ⟨o2, nn, ss⟩
        · rw [hsw] at h; simp at h
        · rw [hsw] at h
          simp only [Option.map_some', Option.some.injEq, Prod.mk.injEq,
            DispatchOutcome.waited.injEq] at h
          obtain ⟨ho, hn⟩ := h
          subst ho
          exact syncWait_no_noneResult refresh clock (mkOperationWait now).deadline
            hmono fuel 0 0 nn ss hsw
    · intro h
      cases http with
      | error e => simp [deleteResource] at h
      | ok o =>
        simp only [deleteResource, Bool.not_true, Bool.false_eq_true, if_false] at h
        rcases hsw : syncWait refresh clock (mkOperationWait now).deadline fuel 0 0
          with _ | ⟨o2, nn, ss⟩
        · rw [hsw] at h; simp at h
        · rw [hsw] at h
          simp only [Option.map_some', Option.some.injEq, Prod.mk.injEq,
            DispatchOutcome.waited.injEq] at h
          obtain ⟨ho, hn⟩ := h
          subst ho
          exact syncWait_no_noneResult refresh clock (mkOperationWait now).deadline
            hmono fuel 0 0 nn ss hsw

/-- Witness for C10: fire-and-forget returns even a failed Operation
verbatim with zero refresh calls. -/
theorem C10_witness :
    resourceCreate (.ok failedOp) false (fun _ => .ok failedOp) (fun _ => 0) 0 1 =
      some (.returned failedOp, 0) :=
  ((C10_dispatch_template (.ok failedOp) (fun _ => .ok failedOp) (fun _ => 0) 0 1).1
    failedOp rfl).1

end YC
